import Mathlib

/-
Verification development for the api-subtle-ai media processing service.

The definitions below are a shallow embedding of the Python source:
  - app/utils/database.py      (quota ledger: update_user_usage, get_user_details)
  - app/utils/video_processor.py (style compiler: _convert_color_to_ass,
      _get_alignment_value, _get_font_size_multiplier, _get_font_for_language,
      _convert_styles_to_ass)
  - app/routers/videos.py      (generate_subtitles, get_dubbed_video,
      burn_subtitles handlers)

Monetary and duration values are modelled as rationals.  External
collaborators (object store, duration probe, transcription, dubbing
provider, render step) appear as oracle inputs; persisted-record updates on
a row we hold are modelled as applied state transitions, and every mutating
call a handler makes is recorded in an effect trace.
-/

/-! Quota ledger (app/utils/database.py). -/

/-- The users row as read and written by update_user_usage / get_user_details. -/
structure Account where
  minutes_consumed : ℚ
  free_minutes_used : ℚ
  total_cost : ℚ
  allowed_minutes : ℚ
deriving Repr, DecidableEq

/-- Arithmetic core of update_user_usage (database.py lines 271-301).
The code reads the current row and writes:
  new_minutes      = current_minutes + minutes
  new_free_minutes = min(current_free_minutes + minutes, 50.0)
  new_total_cost   = current_total_cost + max(0, (current_free_minutes + minutes) - 50.0) * 0.10
The cap 50.0 and the rate 0.10 are hardcoded in the function body; the
`cost` argument is accepted but never used. -/
def update_user_usage (a : Account) (minutes cost : ℚ) : Account :=
  { a with
    minutes_consumed := a.minutes_consumed + minutes
    free_minutes_used := min (a.free_minutes_used + minutes) 50
    total_cost := a.total_cost + max 0 ((a.free_minutes_used + minutes) - 50) * (1/10) }

/-- update_user_usage including the row lookup: returns False without
mutation when no user row exists, otherwise applies the arithmetic core
and returns True.  No other validation is performed on the inputs. -/
def update_user_usage_call (store : Option Account) (minutes cost : ℚ) :
    Bool × Option Account :=
  match store with
  | none => (false, none)
  | some a => (true, some (update_user_usage a minutes cost))

/-- A finite sequence of update_user_usage calls (minutes, cost pairs)
applied in order to an account. -/
def run_usage (a : Account) (calls : List (ℚ × ℚ)) : Account :=
  calls.foldl (fun acc c => update_user_usage acc c.1 c.2) a

/-- minutes_remaining as computed by get_user_details (database.py lines
303-333): max(0, allowed_minutes - free_minutes_used). -/
def minutes_remaining (a : Account) : ℚ :=
  max 0 (a.allowed_minutes - a.free_minutes_used)

theorem update_user_usage_free_le (a : Account) (m c : ℚ) :
    (update_user_usage a m c).free_minutes_used ≤ 50 :=
  min_le_right _ _

theorem update_user_usage_cost_mono (a : Account) (m c : ℚ) :
    a.total_cost ≤ (update_user_usage a m c).total_cost := by
  have h : 0 ≤ max 0 ((a.free_minutes_used + m) - 50) * (1/10) :=
    mul_nonneg (le_max_left 0 _) (by norm_num)
  simpa [update_user_usage] using le_add_of_nonneg_right h

theorem run_usage_cost_mono (a : Account) (calls : List (ℚ × ℚ)) :
    a.total_cost ≤ (run_usage a calls).total_cost := by
  induction calls generalizing a with
  | nil => simp [run_usage]
  | cons c t ih =>
      have h1 := update_user_usage_cost_mono a c.1 c.2
      have h2 := ih (update_user_usage a c.1 c.2)
      calc a.total_cost ≤ (update_user_usage a c.1 c.2).total_cost := h1
        _ ≤ (run_usage (update_user_usage a c.1 c.2) t).total_cost := h2
        _ = (run_usage a (c :: t)).total_cost := by simp [run_usage]

theorem run_usage_free_le (a : Account) (calls : List (ℚ × ℚ))
    (h : a.free_minutes_used ≤ 50) :
    (run_usage a calls).free_minutes_used ≤ 50 := by
  induction calls generalizing a with
  | nil => simpa [run_usage] using h
  | cons c t ih =>
      have h1 := update_user_usage_free_le a c.1 c.2
      simpa [run_usage] using ih (update_user_usage a c.1 c.2) h1

theorem run_usage_append (a : Account) (l₁ l₂ : List (ℚ × ℚ)) :
    run_usage a (l₁ ++ l₂) = run_usage (run_usage a l₁) l₂ := by
  simp [run_usage, List.foldl_append]

/-! Style compiler (app/utils/video_processor.py). -/

/-- ASCII lowercase of one character; models Python str.lower on the ASCII
keys and keywords the style compiler compares against. -/
def lowChar (c : Char) : Char :=
  if 65 ≤ c.toNat ∧ c.toNat ≤ 90 then Char.ofNat (c.toNat + 32) else c

/-- Python str.lower over a whole string. -/
def pyLower (s : String) : String := String.mk (s.data.map lowChar)

/-- A dynamically typed Python value as it occurs in a style payload:
a string, an integer, or None. -/
inductive PyVal
  | vstr (s : String)
  | vint (n : Int)
  | vnone
deriving Repr, DecidableEq

/-- Python str() applied to a PyVal. -/
def pyStr : PyVal → String
  | PyVal.vstr s => s
  | PyVal.vint n => toString n
  | PyVal.vnone => "None"

/-- Try-block of _convert_color_to_ass (video_processor.py lines 20-31):
for a string, remove every "#", slice [:2], [2:4], [4:] and emit
"&H" + b + g + r; for any non-string value the attribute access
hex_color.replace raises, which the except-handler catches. -/
def convert_color_body (v : PyVal) : Except Unit String :=
  match v with
  | PyVal.vstr s =>
      let t := s.data.filter (fun c => !(c == '#'))
      let r := t.take 2
      let g := (t.drop 2).take 2
      let b := t.drop 4
      Except.ok (String.mk ("&H".data ++ b ++ g ++ r))
  | _ => Except.error ()

/-- _convert_color_to_ass with its internal exception handler: any failure
falls back to white, so the function never raises to its caller. -/
def convert_color_to_ass (v : PyVal) : String :=
  match convert_color_body v with
  | Except.ok s => s
  | Except.error _ => "&HFFFFFF"

/-- _get_alignment_value (video_processor.py lines 33-54): numpad-style
grid code from (position, alignment). -/
def get_alignment_value (position alignment : String) : Nat :=
  if position = "top" then
    if alignment = "left" then 7
    else if alignment = "right" then 9
    else 8
  else
    if alignment = "left" then 1
    else if alignment = "right" then 3
    else 2

/-- _get_font_size_multiplier (video_processor.py lines 56-63):
large→32, medium→24, small→16, anything else→16. -/
def get_font_size_multiplier (size_setting : String) : Nat :=
  if pyLower size_setting = "large" then 32
  else if pyLower size_setting = "medium" then 24
  else if pyLower size_setting = "small" then 16
  else 16

/-- _get_font_for_language (video_processor.py lines 65-72): static
language→font lookup falling back to the caller-specified family. -/
def get_font_for_language (font_family language : String) : String :=
  if language = "zh" then "Noto Sans CJK SC"
  else if language = "ja" then "Noto Sans CJK JP"
  else if language = "ko" then "Noto Sans CJK KR"
  else font_family

/-- round(num/den, 2) in hundredths with ties to even, matching Python
round applied to base_font_size / 1.5 (num, den positive). -/
def round_half_even_centi (num den : Nat) : Nat :=
  let m := 100 * num
  let q := m / den
  let r := m % den
  if 2 * r < den then q
  else if den < 2 * r then q + 1
  else if q % 2 = 0 then q else q + 1

/-- Decimal rendering of a value held in hundredths, matching the Python
f-string rendering of the two-decimal float (trailing zero collapsed,
whole values shown with a single ".0"). -/
def render_centi (n : Nat) : String :=
  let whole := n / 100
  let frac := n % 100
  if frac = 0 then toString whole ++ ".0"
  else if frac % 10 = 0 then toString whole ++ "." ++ toString (frac / 10)
  else if frac < 10 then toString whole ++ ".0" ++ toString frac
  else toString whole ++ "." ++ toString frac

/-- The subtitle_styles argument of _convert_styles_to_ass as the caller
can supply it: None, a dict (unique keys), or a truthy value that is not
a mapping (on which attribute access .get raises). -/
inductive StylesPayload
  | pynone
  | pydict (entries : List (String × PyVal))
  | nonmapping
deriving Repr, DecidableEq

/-- Python truthiness of a styles payload: None and the empty dict are
falsy, a non-empty dict and any non-mapping object here are truthy. -/
def truthyPayload : StylesPayload → Bool
  | StylesPayload.pynone => false
  | StylesPayload.pydict [] => false
  | StylesPayload.pydict (_ :: _) => true
  | StylesPayload.nonmapping => true

/-- dict.get(key, default) on a dict with unique keys. -/
def dictGet (entries : List (String × PyVal)) (k : String) (dflt : PyVal) : PyVal :=
  match entries.find? (fun e => e.1 == k) with
  | some e => e.2
  | none => dflt

/-- Literal prefix shared by both f-strings in _convert_styles_to_ass
(the generated stylesheet and the fallback). -/
def ass_format_header : String :=
  "[Script Info]\nScriptType: v4.00+\nPlayResX: 384\nPlayResY: 288\n\n[V4+ Styles]\nFormat: Name, Fontname, Fontsize, PrimaryColour, SecondaryColour, OutlineColour, BackColour, Bold, Italic, Underline, StrikeOut, ScaleX, ScaleY, Spacing, Angle, BorderStyle, Outline, Shadow, Alignment, MarginL, MarginR, MarginV, Encoding\n"

/-- Literal suffix shared by both f-strings in _convert_styles_to_ass. -/
def ass_events_footer : String :=
  "\n\n[Events]\nFormat: Layer, Start, End, Style, Name, MarginL, MarginR, MarginV, Effect, Text\n"

/-- Try-block of _convert_styles_to_ass (video_processor.py lines 92-149).
Only the attribute accesses subtitle_styles.get can raise inside the try;
they do so exactly when the payload is not a mapping (None, or a truthy
non-mapping object).  Font size is held in hundredths: the source computes
final_font_size = round(base / 1.5, 2), i.e. round_half_even_centi (2*base) 3.
The base_font_size parameter of the source is overwritten before use and
the language parameter is never read, so neither appears here. -/
def convert_styles_body (p : StylesPayload) : Except Unit String := do
  let pget : String → PyVal → Except Unit PyVal := fun k d =>
    match p with
    | StylesPayload.pydict es => Except.ok (dictGet es k d)
    | _ => Except.error ()
  let sizes ←
    (if truthyPayload p = false then
      Except.ok (round_half_even_centi (24 * 2) 3, "1,1")
    else do
      let fs ← pget "fontSize" (PyVal.vstr "small")
      let font_size_setting := pyLower (pyStr fs)
      let base := get_font_size_multiplier font_size_setting
      Except.ok (round_half_even_centi (base * 2) 3, "0,0"))
  let final_font_size := sizes.1
  let outline_shadow := sizes.2
  let colorv ← pget "color" (PyVal.vstr "#FFFFFF")
  let primary_color := convert_color_to_ass colorv
  let primary_with_alpha := String.mk ("&H00".data ++ primary_color.data.drop 2)
  let transparent := "&H00000000"
  let posv ← pget "position" (PyVal.vstr "bottom")
  let position := pyLower (pyStr posv)
  let alignv ← pget "alignment" (PyVal.vstr "center")
  let alignment := pyLower (pyStr alignv)
  let alignment_value := get_alignment_value position alignment
  let fwv ← pget "fontWeight" (PyVal.vstr "normal")
  let font_weight := pyLower (pyStr fwv)
  let fsv ← pget "fontStyle" (PyVal.vstr "normal")
  let font_style := pyLower (pyStr fsv)
  let margin_v : Nat := if position = "top" then 30 else 40
  let margin_h : Nat := 20
  Except.ok (ass_format_header ++
    "Style: Default,Arial," ++ render_centi final_font_size ++ "," ++
    primary_with_alpha ++ "," ++ transparent ++ "," ++ transparent ++ "," ++ transparent ++ "," ++
    (if font_weight = "bold" then "1" else "0") ++ "," ++
    (if font_style = "italic" then "1" else "0") ++ ",0,0,100,100,0,0,1," ++
    outline_shadow ++ "," ++ toString alignment_value ++ "," ++
    toString margin_h ++ "," ++ toString margin_h ++ "," ++ toString margin_v ++ ",1" ++
    ass_events_footer)

/-- The fallback stylesheet returned by the except-handler of
_convert_styles_to_ass (video_processor.py lines 151-164). -/
def default_style_string : String :=
  ass_format_header ++
  "Style: Default,Arial,24,&H00FFFFFF,&H00000000,&H00000000,&H00000000,0,0,0,0,100,100,0,0,1,1,1,2,20,20,40,1" ++
  ass_events_footer

/-- _convert_styles_to_ass including its exception handler: an error in
the try-block yields the fallback stylesheet, so the compiler never raises
to its caller.  base_font_size and language are the parameters of the
source function; the body uses neither. -/
def convert_styles_to_ass (p : StylesPayload) (base_font_size : Int) (language : String) : String :=
  match convert_styles_body p with
  | Except.ok s => s
  | Except.error _ => default_style_string

/-- Whether needle occurs as a leading segment of hay. -/
def charsStart : List Char → List Char → Bool
  | [], _ => true
  | _ :: _, [] => false
  | a :: as, b :: bs => a == b && charsStart as bs

/-- Whether needle occurs as a contiguous segment of hay. -/
def charsHasSub (needle : List Char) : List Char → Bool
  | [] => needle.isEmpty
  | c :: t => charsStart needle (c :: t) || charsHasSub needle t

/-- Whether needle occurs as a contiguous substring of hay. -/
def str_has_sub (hay needle : String) : Bool :=
  charsHasSub needle.data hay.data

/-! Video lifecycle handlers (app/routers/videos.py). -/

/-- A videos row as the handlers read and write it. -/
structure Video where
  id : Nat
  user_id : Nat
  status : String
  video_url : String
  language : String
  duration_minutes : ℚ
  dubbing_id : Option String
  dubbed_video_url : Option String
  burned_video_url : Option String
  is_dubbed_audio : Bool
deriving Repr, DecidableEq

/-- A subtitles row as burn_subtitles reads it. -/
structure Subtitle where
  video_id : Nat
  subtitle_url : String
  language : String
deriving Repr, DecidableEq

/-- An HTTPException with its status code and a short tag for the detail
message it carries. -/
structure HttpError where
  code : Nat
  detail : String
deriving Repr, DecidableEq

/-- Python truthiness of an optional string column: NULL and the empty
string are falsy. -/
def truthyOptStr : Option String → Bool
  | none => false
  | some s => !(s == "")

/-- round(x, 2) at the response boundary: Python round, half to even. -/
def round2 (q : ℚ) : ℚ :=
  let x := q * 100
  let f : ℤ := Int.floor x
  let r := x - f
  let n : ℤ := if r < 1/2 then f else if 1/2 < r then f + 1 else if f % 2 = 0 then f else f + 1
  (n : ℚ) / 100

/-- The fields of get_user_details consumed by the quota pre-check in
generate_subtitles. -/
structure UserDetails where
  user_minutes_remaining : ℚ
  user_allowed_minutes : ℚ
deriving Repr, DecidableEq

/-- Oracle inputs of one generate_subtitles request: the parsed request,
the database rows it reads, and the outcome of each external call the
handler makes. -/
structure GenEnv where
  uuid_valid : Bool
  video : Option Video
  current_user_id : Nat
  enable_dubbing : Bool
  status_update_ok : String → Bool
  download_ok : Bool
  duration : ℚ
  processing_cost : ℚ
  user_details : Option UserDetails
  dubbing_result : Option String
  subtitle_url : Option String
  save_subtitle_ok : Bool

/-- One mutating call made by generate_subtitles, in call order. -/
inductive Eff
  | updateStatus (s : String)
  | updateDubbingInfo (dubbing_id : String) (is_dubbed : Bool)
  | recordUsage (minutes cost : ℚ)
  | saveSubtitle (url lang : String)
deriving Repr, DecidableEq

/-- The success payload of generate_subtitles that the claims consume. -/
structure GenResponse where
  response_status : String
  duration_minutes : ℚ
  processing_cost : ℚ
deriving Repr, DecidableEq

/-- generate_subtitles handler (videos.py lines 262-481): result of the
request together with the trace of mutating calls it issued.  The nesting
mirrors the source: validation, §status gate, status:=processing, the
inner try (download + quota re-check), then the dubbing flow or the
subtitle flow.  In the subtitle flow the call to update_user_usage sits
inside the `if not await update_video_status(video_uuid, "completed")`
block (lines 444-449), so it is reached only when that status update
fails. -/
def generate_subtitles (env : GenEnv) : Except HttpError GenResponse × List Eff :=
  if env.uuid_valid = false then
    (Except.error ⟨400, "Invalid video UUID format"⟩, [])
  else match env.video with
  | none => (Except.error ⟨404, "Video not found"⟩, [])
  | some video =>
    if video.user_id ≠ env.current_user_id then
      (Except.error ⟨403, "Not authorized to generate subtitles for this video"⟩, [])
    else if video.status ∉ ["queued", "uploaded", "failed"] then
      (Except.error ⟨400, "Cannot process video in status"⟩, [])
    else
      let effs0 := [Eff.updateStatus "processing"]
      if env.status_update_ok "processing" = false then
        (Except.error ⟨500, "Failed to update video status to processing"⟩, effs0)
      else if env.download_ok = false then
        (Except.error ⟨500, "Failed to process video"⟩, effs0 ++ [Eff.updateStatus "failed"])
      else match env.user_details with
      | none => (Except.error ⟨404, "User details not found"⟩, effs0)
      | some ud =>
        if ud.user_minutes_remaining < env.duration ∧ 0 < env.processing_cost then
          (Except.error ⟨402, "Insufficient free minutes"⟩, effs0)
        else if env.enable_dubbing then
          match env.dubbing_result with
          | none => (Except.error ⟨500, "Failed to create dubbing job"⟩, effs0)
          | some dub_id =>
            (Except.ok ⟨"processing", round2 env.duration, round2 env.processing_cost⟩,
             effs0 ++ [Eff.updateDubbingInfo dub_id false, Eff.updateStatus "processing",
                       Eff.recordUsage env.duration env.processing_cost])
        else match env.subtitle_url with
        | none => (Except.error ⟨500, "Failed to generate subtitles"⟩, effs0)
        | some sub_url =>
          let effs1 := effs0 ++ [Eff.saveSubtitle sub_url video.language]
          if env.save_subtitle_ok = false then
            (Except.error ⟨500, "Failed to save subtitle metadata"⟩, effs1)
          else
            let effs2 := effs1 ++ [Eff.updateStatus "completed"]
            if env.status_update_ok "completed" = false then
              (Except.ok ⟨"completed", round2 env.duration, round2 env.processing_cost⟩,
               effs2 ++ [Eff.recordUsage env.duration env.processing_cost])
            else
              (Except.ok ⟨"completed", round2 env.duration, round2 env.processing_cost⟩, effs2)

/-- Oracle inputs of one get_dubbed_video request: provider_status is the
optional status field of the provider response when the status call
succeeds; fetched_url is the outcome of get_dubbed_audio. -/
structure DubEnv where
  uuid_valid : Bool
  video : Option Video
  dubbing_id : String
  current_user_id : Nat
  provider_status : Option (Option String)
  fetched_url : Option String

/-- One call made by get_dubbed_video, in call order. -/
inductive DubEff
  | providerStatusCall
  | providerFetchCall
  | dbUpdateDubbing (dubbing_id url : String)
  | dbUpdateStatus (s : String)
deriving Repr, DecidableEq

/-- The success payload of get_dubbed_video that the claims consume. -/
structure DubResponse where
  dubbed_video_url : String
  response_status : String
deriving Repr, DecidableEq

/-- get_dubbed_video handler (videos.py lines 783-885): result, the video
row after the request, and the trace of provider and database calls.
validate_video_access is lines 1179-1211; the early return on a cached
dubbed_video_url is lines 808-819; the not-completed rejection is lines
821-834; on success update_video_dubbing stores the URL and
update_video_status moves the row to completed. -/
def get_dubbed_video (env : DubEnv) : Except HttpError DubResponse × Option Video × List DubEff :=
  if env.uuid_valid = false then
    (Except.error ⟨400, "Invalid video UUID format"⟩, env.video, [])
  else match env.video with
  | none => (Except.error ⟨404, "Video not found"⟩, none, [])
  | some video =>
    if video.user_id ≠ env.current_user_id then
      (Except.error ⟨403, "Not authorized to access this video"⟩, some video, [])
    else if truthyOptStr video.dubbing_id = false ∨ video.dubbing_id ≠ some env.dubbing_id then
      (Except.error ⟨400, "Invalid dubbing ID for this video"⟩, some video, [])
    else if truthyOptStr video.dubbed_video_url then
      (Except.ok ⟨video.dubbed_video_url.getD "", "dubbed"⟩, some video, [])
    else match env.provider_status with
    | none =>
      (Except.error ⟨500, "Failed to get dubbing status"⟩, some video, [DubEff.providerStatusCall])
    | some st =>
      let status_value := st.getD "dubbing"
      if status_value ≠ "dubbed" then
        (Except.error ⟨400, "Dubbing is not completed yet"⟩, some video, [DubEff.providerStatusCall])
      else match env.fetched_url with
      | none =>
        (Except.error ⟨500, "Failed to get dubbed video"⟩, some video,
         [DubEff.providerStatusCall, DubEff.providerFetchCall])
      | some url =>
        let video1 := { video with dubbing_id := some env.dubbing_id,
                                   dubbed_video_url := some url,
                                   is_dubbed_audio := true }
        let video2 := { video1 with status := "completed" }
        (Except.ok ⟨url, "dubbed"⟩, some video2,
         [DubEff.providerStatusCall, DubEff.providerFetchCall,
          DubEff.dbUpdateDubbing env.dubbing_id url, DubEff.dbUpdateStatus "completed"])

/-- The substring of hay after its first occurrence of sep, scanning from
the left; none when sep does not occur. -/
def afterFirstMatch (sep : List Char) : List Char → Option (List Char)
  | [] => none
  | c :: t =>
      if charsStart sep (c :: t) then some ((c :: t).drop sep.length)
      else afterFirstMatch sep t

/-- The last element of Python s.split(sep): the suffix of hay after the
last non-overlapping occurrence of sep found by a left-to-right scan, or
hay itself when sep does not occur.  The fuel argument (instantiated with
the length of hay) bounds the number of matches and is never exhausted
for a non-empty sep. -/
def pySplitLastAux (sep : List Char) : Nat → List Char → List Char
  | 0, hay => hay
  | Nat.succ fuel, hay =>
      match afterFirstMatch sep hay with
      | none => hay
      | some rest => pySplitLastAux sep fuel rest

/-- STORAGE_BUCKET (app/core/config.py line 35). -/
def STORAGE_BUCKET : String := "videos"

/-- url.split(f"{STORAGE_BUCKET}/")[-1]: the object key extraction used by
the handlers before download_file / delete_file calls. -/
def extract_storage_path (url : String) : String :=
  String.mk (pySplitLastAux (STORAGE_BUCKET ++ "/").data url.data.length url.data)

/-- Oracle inputs of one burn_subtitles request: the database rows read
and the outcome of the video_processor.burn_subtitles call (None models
its internal failure path). -/
structure BurnEnv where
  uuids_valid : Bool
  video : Option Video
  subtitle : Option Subtitle
  current_user_id : Nat
  burn_result : Option String

/-- One storage or database call made by burn_subtitles, in call order. -/
inductive BurnEff
  | deleteFileAttempt (path : String)
  | dbUpdateUrls (url : String)
  | dbUpdateBurnedUrl (url : String)
deriving Repr, DecidableEq

/-- The success payload of burn_subtitles that the claims consume. -/
structure BurnResponse where
  burned_video_url : String
  language : String
  response_status : String
deriving Repr, DecidableEq

/-- burn_subtitles handler (videos.py lines 977-1101): result, the video
row after the request, and the trace of storage deletions and database
updates.  is_dubbed is the truthiness of dubbed_video_url (line 1042); a
dubbed source deletes the old dubbed object and then update_video_urls
(database.py lines 374-392) writes the processed URL into both
dubbed_video_url and burned_video_url, while a non-dubbed source only
goes through update_video_burned_url (database.py lines 357-372). -/
def burn_subtitles (env : BurnEnv) : Except HttpError BurnResponse × Option Video × List BurnEff :=
  if env.uuids_valid = false then
    (Except.error ⟨400, "Invalid UUID format"⟩, env.video, [])
  else match env.video with
  | none => (Except.error ⟨404, "Video not found"⟩, none, [])
  | some video =>
    if video.user_id ≠ env.current_user_id then
      (Except.error ⟨403, "Not authorized to process this video"⟩, some video, [])
    else match env.subtitle with
    | none => (Except.error ⟨404, "Subtitle not found"⟩, some video, [])
    | some subtitle =>
      if subtitle.video_id ≠ video.id then
        (Except.error ⟨400, "Subtitle does not belong to this video"⟩, some video, [])
      else
        let is_dubbed := truthyOptStr video.dubbed_video_url
        match env.burn_result with
        | none => (Except.error ⟨500, "Failed to burn subtitles into video"⟩, some video, [])
        | some processed_url =>
          if is_dubbed then
            let old_path := extract_storage_path (video.dubbed_video_url.getD "")
            let video1 := { video with dubbed_video_url := some processed_url,
                                       burned_video_url := some processed_url }
            (Except.ok ⟨processed_url, subtitle.language, "completed"⟩, some video1,
             [BurnEff.deleteFileAttempt old_path, BurnEff.dbUpdateUrls processed_url])
          else
            let video1 := { video with burned_video_url := some processed_url }
            (Except.ok ⟨processed_url, subtitle.language, "completed"⟩, some video1,
             [BurnEff.dbUpdateBurnedUrl processed_url])

/-! Claim theorems. -/

/-- C1: the claim says update_user_usage bills minutes beyond the
account's own allowed_minutes (here 30) at the configured rate 1.25, so
that from free_minutes_used = 25 a 10-minute usage ends at 30 free
minutes and adds 6.25 to total_cost.  The code instead caps free minutes
at a hardcoded 50 and bills at a hardcoded 0.10, so the same call ends at
free_minutes_used = 35 and adds nothing to total_cost. -/
theorem C1_hardcoded_cap_and_rate :
    let a : Account := { minutes_consumed := 25, free_minutes_used := 25,
                         total_cost := 0, allowed_minutes := 30 }
    (update_user_usage a 10 (25/2)).free_minutes_used = 35 ∧
    (update_user_usage a 10 (25/2)).total_cost = 0 ∧
    (update_user_usage a 10 (25/2)).allowed_minutes < (update_user_usage a 10 (25/2)).free_minutes_used := by
  refine ⟨?_, ?_, ?_⟩ <;> norm_num [update_user_usage, min_def, max_def]

/-- C3, counterexample: after one recordUsage call of 40 minutes on a
fresh account with allowed_minutes = 30 (the default), free_minutes_used
is 40, strictly above allowed_minutes, refuting the claimed invariant
freeMinutesUsed ≤ allowedMinutes. -/
theorem C3_counterexample :
    let a : Account := { minutes_consumed := 0, free_minutes_used := 0,
                         total_cost := 0, allowed_minutes := 30 }
    (run_usage a [(40, 0)]).allowed_minutes < (run_usage a [(40, 0)]).free_minutes_used := by
  norm_num [run_usage, update_user_usage, min_def, max_def]

/-- C3, amended: after any finite sequence of recordUsage calls, starting
from free_minutes_used ≤ 50 and total_cost ≥ 0, free_minutes_used stays
bounded by the hardcoded 50-minute cap (not by the account's
allowed_minutes), total_cost stays nonnegative, and total_cost is
non-decreasing across the sequence. -/
theorem C3_amended_invariants (a : Account) (calls : List (ℚ × ℚ))
    (hfree : a.free_minutes_used ≤ 50) (hcost : 0 ≤ a.total_cost) :
    (run_usage a calls).free_minutes_used ≤ 50 ∧
    0 ≤ (run_usage a calls).total_cost ∧
    ∀ l₁ l₂, calls = l₁ ++ l₂ →
      (run_usage a l₁).total_cost ≤ (run_usage a calls).total_cost := by
  refine ⟨run_usage_free_le a calls hfree,
          le_trans hcost (run_usage_cost_mono a calls), ?_⟩
  intro l₁ l₂ h
  subst h
  rw [run_usage_append]
  exact run_usage_cost_mono _ l₂

/-- C3, witness for the amended theorem at a concrete account and call
sequence. -/
theorem C3_witness :
    (run_usage ⟨0, 0, 0, 30⟩ [(10, 0), (45, 0)]).free_minutes_used ≤ 50 ∧
    0 ≤ (run_usage ⟨0, 0, 0, 30⟩ [(10, 0), (45, 0)]).total_cost ∧
    ∀ l₁ l₂, [((10 : ℚ), (0 : ℚ)), (45, 0)] = l₁ ++ l₂ →
      (run_usage ⟨0, 0, 0, 30⟩ l₁).total_cost ≤
        (run_usage ⟨0, 0, 0, 30⟩ [(10, 0), (45, 0)]).total_cost :=
  C3_amended_invariants ⟨0, 0, 0, 30⟩ [(10, 0), (45, 0)] (by norm_num) (by norm_num)

/-- C4, counterexample: a call with duration -5 on an account with
minutes_consumed = 10, free_minutes_used = 10 is not rejected: it returns
True and writes ⟨5, 5, 0, 30⟩, strictly decreasing minutes_consumed. -/
theorem C4_counterexample :
    let a : Account := { minutes_consumed := 10, free_minutes_used := 10,
                         total_cost := 0, allowed_minutes := 30 }
    (update_user_usage_call (some a) (-5) 0).1 = true ∧
    (update_user_usage_call (some a) (-5) 0).2 =
      some { minutes_consumed := 5, free_minutes_used := 5,
             total_cost := 0, allowed_minutes := 30 } ∧
    (update_user_usage a (-5) 0).minutes_consumed < a.minutes_consumed := by
  refine ⟨rfl, ?_, ?_⟩ <;>
    norm_num [update_user_usage_call, update_user_usage, min_def, max_def]

/-- C4, amended: update_user_usage performs no negative-duration check:
such a call succeeds and applies the same arithmetic, strictly decreasing
minutes_consumed and free_minutes_used, and leaving total_cost unchanged
whenever the result stays at or below the hardcoded 50-minute cap. -/
theorem C4_amended_negative_applied (a : Account) (d c : ℚ) (hd : d < 0) :
    (update_user_usage_call (some a) d c).1 = true ∧
    (update_user_usage a d c).minutes_consumed < a.minutes_consumed ∧
    (update_user_usage a d c).free_minutes_used < a.free_minutes_used ∧
    (a.free_minutes_used + d ≤ 50 →
      (update_user_usage a d c).total_cost = a.total_cost) := by
  refine ⟨rfl, ?_, ?_, ?_⟩
  · simp only [update_user_usage]
    linarith
  · exact lt_of_le_of_lt (min_le_left _ _) (by linarith)
  · intro h
    have hz : a.free_minutes_used + d - 50 ≤ 0 := by linarith
    simp [update_user_usage, max_eq_left hz]

/-- C4, witness for the amended theorem at a concrete account and a
concrete negative duration. -/
theorem C4_witness :
    (update_user_usage_call (some ⟨10, 10, 0, 30⟩) (-5) 0).1 = true ∧
    (update_user_usage ⟨10, 10, 0, 30⟩ (-5) 0).minutes_consumed < (10 : ℚ) ∧
    (update_user_usage ⟨10, 10, 0, 30⟩ (-5) 0).free_minutes_used < (10 : ℚ) ∧
    ((10 : ℚ) + (-5) ≤ 50 →
      (update_user_usage ⟨10, 10, 0, 30⟩ (-5) 0).total_cost = (0 : ℚ)) :=
  C4_amended_negative_applied ⟨10, 10, 0, 30⟩ (-5) 0 (by norm_num)

set_option maxRecDepth 8000 in
/-- C5: the static language→font lookup does return the dedicated CJK
fonts for zh/ja/ko and the caller-specified family otherwise, but the
compiled stylesheet never uses it: the emitted font family is the
hardcoded Arial and the language argument of the compiler is ignored
(conjunct five shows the output does not depend on it). -/
theorem C5_language_font_lookup_unused :
    get_font_for_language "Arial" "zh" = "Noto Sans CJK SC" ∧
    get_font_for_language "Arial" "ja" = "Noto Sans CJK JP" ∧
    get_font_for_language "Arial" "ko" = "Noto Sans CJK KR" ∧
    get_font_for_language "Arial" "en" = "Arial" ∧
    (∀ p bf l l2, convert_styles_to_ass p bf l = convert_styles_to_ass p bf l2) ∧
    str_has_sub (convert_styles_to_ass (StylesPayload.pydict []) 18 "zh")
      "Style: Default,Arial," = true ∧
    str_has_sub (convert_styles_to_ass (StylesPayload.pydict []) 18 "zh") "Noto" = false := by
  refine ⟨by decide, by decide, by decide, by decide, fun p bf l l2 => rfl, ?_, ?_⟩ <;> decide

set_option maxRecDepth 8000 in
/-- C6, counterexample: with the payload containing color 123 the color
conversion fails inside _convert_color_to_ass, yet the compiler returns
the custom stylesheet (font size 10.67 from the "small" default), which
differs from the no-style default stylesheet (font size literal 24). -/
theorem C6_counterexample :
    convert_color_body (PyVal.vint 123) = Except.error () ∧
    str_has_sub (convert_styles_to_ass (StylesPayload.pydict [("color", PyVal.vint 123)]) 18 "en")
      "Style: Default,Arial,10.67," = true ∧
    str_has_sub default_style_string "Style: Default,Arial,10.67," = false := by
  refine ⟨rfl, ?_, ?_⟩ <;> decide

/-- C6, amended: the compiler returns a stylesheet string for every
input without raising; the no-style default stylesheet is returned
exactly when the try-block fails, which happens only for a non-mapping
payload (None or a truthy non-dict), while a color conversion failure is
absorbed inside the color converter as white and the custom stylesheet is
still emitted (the try-block succeeds on every dict payload). -/
theorem C6_amended_fallback_scope :
    (∀ bf l, convert_styles_to_ass StylesPayload.pynone bf l = default_style_string) ∧
    (∀ bf l, convert_styles_to_ass StylesPayload.nonmapping bf l = default_style_string) ∧
    convert_color_to_ass (PyVal.vint 123) = "&HFFFFFF" ∧
    (∀ es bf l, ∃ s, convert_styles_body (StylesPayload.pydict es) = Except.ok s ∧
      convert_styles_to_ass (StylesPayload.pydict es) bf l = s) := by
  refine ⟨fun bf l => rfl, fun bf l => rfl, rfl, ?_⟩
  intro es bf l
  cases es with
  | nil => exact ⟨_, rfl, rfl⟩
  | cons e t => exact ⟨_, rfl, rfl⟩

set_option maxRecDepth 8000 in
/-- C7: compiling the style spec fontSize large, color #FF0000, position
top, alignment left yields alignment code 7, font size
round(32 / 1.5, 2) = 21.33, primary colour &H000000FF (channel-swapped
with a leading fully-opaque alpha byte), and outline and shadow disabled
(the ",1,0,0,7," run is BorderStyle 1, Outline 0, Shadow 0, Alignment 7). -/
theorem C7_round_trip :
    convert_styles_to_ass (StylesPayload.pydict
      [("fontSize", PyVal.vstr "large"), ("color", PyVal.vstr "#FF0000"),
       ("position", PyVal.vstr "top"), ("alignment", PyVal.vstr "left")]) 18 "en"
    = ass_format_header ++
      "Style: Default,Arial,21.33,&H000000FF,&H00000000,&H00000000,&H00000000,0,0,0,0,100,100,0,0,1,0,0,7,20,20,30,1" ++
      ass_events_footer ∧
    get_alignment_value "top" "left" = 7 ∧
    round_half_even_centi (get_font_size_multiplier "large" * 2) 3 = 2133 ∧
    render_centi 2133 = "21.33" ∧
    convert_color_to_ass (PyVal.vstr "#FF0000") = "&H0000FF" ∧
    String.mk ("&H00".data ++ (convert_color_to_ass (PyVal.vstr "#FF0000")).data.drop 2)
      = "&H000000FF" := by
  refine ⟨by decide, by decide, by decide, by decide, by decide, by decide⟩

/-- C2: on the fully successful non-dubbing path of generate_subtitles
(the subtitle artifact is saved and the move to status completed
succeeds) the handler never calls update_user_usage: the claim that
usage is recorded on success fails because the update_user_usage call of
lines 447-449 is nested inside the failure branch of the completed-status
update. -/
theorem C2_success_path_skips_usage_recording
    (env : GenEnv) (v : Video) (ud : UserDetails) (su : String)
    (huuid : env.uuid_valid = true)
    (hv : env.video = some v)
    (howner : v.user_id = env.current_user_id)
    (hstatus : v.status ∈ ["queued", "uploaded", "failed"])
    (hproc : env.status_update_ok "processing" = true)
    (hdl : env.download_ok = true)
    (hud : env.user_details = some ud)
    (hquota : ¬(ud.user_minutes_remaining < env.duration ∧ 0 < env.processing_cost))
    (hdub : env.enable_dubbing = false)
    (hsub : env.subtitle_url = some su)
    (hsave : env.save_subtitle_ok = true)
    (hcomp : env.status_update_ok "completed" = true) :
    (generate_subtitles env).1 =
      Except.ok ⟨"completed", round2 env.duration, round2 env.processing_cost⟩ ∧
    (generate_subtitles env).2 =
      [Eff.updateStatus "processing", Eff.saveSubtitle su v.language,
       Eff.updateStatus "completed"] ∧
    ∀ m c, Eff.recordUsage m c ∉ (generate_subtitles env).2 := by
  have hstatus3 : v.status = "queued" ∨ v.status = "uploaded" ∨ v.status = "failed" := by
    simpa using hstatus
  rcases hstatus3 with h | h | h <;>
    simp [generate_subtitles, huuid, hv, howner, h, hproc, hdl, hud, hquota, hdub,
          hsub, hsave, hcomp]

/-- Video row of the C2 witness request. -/
def videoC2 : Video :=
  { id := 1, user_id := 7, status := "queued",
    video_url := "https://kv.example.co/storage/v1/object/public/videos/videos/20250101_abcdefgh.mp4",
    language := "en", duration_minutes := 10, dubbing_id := none,
    dubbed_video_url := none, burned_video_url := none, is_dubbed_audio := false }

/-- Oracle inputs of the C2 witness request: everything succeeds. -/
def envC2 : GenEnv :=
  { uuid_valid := true, video := some videoC2, current_user_id := 7,
    enable_dubbing := false, status_update_ok := fun _ => true,
    download_ok := true, duration := 10, processing_cost := 6/100,
    user_details := some ⟨20, 30⟩, dubbing_result := none,
    subtitle_url := some "https://kv.example.co/storage/v1/object/public/videos/subtitles/s.srt",
    save_subtitle_ok := true }

/-- C2, witness: the fully successful concrete request completes without
any recordUsage effect. -/
theorem C2_witness :
    (generate_subtitles envC2).1 =
      Except.ok ⟨"completed", round2 (10 : ℚ), round2 ((6 : ℚ)/100)⟩ ∧
    (generate_subtitles envC2).2 =
      [Eff.updateStatus "processing",
       Eff.saveSubtitle "https://kv.example.co/storage/v1/object/public/videos/subtitles/s.srt" "en",
       Eff.updateStatus "completed"] ∧
    ∀ m c, Eff.recordUsage m c ∉ (generate_subtitles envC2).2 :=
  C2_success_path_skips_usage_recording envC2 videoC2 ⟨20, 30⟩
    "https://kv.example.co/storage/v1/object/public/videos/subtitles/s.srt"
    rfl rfl rfl (by decide) rfl rfl rfl (by norm_num [envC2]) rfl rfl rfl rfl

/-- C9: a generate-subtitles request is accepted only from the statuses
queued, uploaded or failed (second conjunct: any accepted request had one
of those statuses); for a video in completed or processing status it is
rejected with the 400 invalid-status error and no mutating call has been
made (first conjunct). -/
theorem C9_status_gate :
    (∀ env v, env.uuid_valid = true → env.video = some v →
      v.user_id = env.current_user_id →
      (v.status = "completed" ∨ v.status = "processing") →
      (generate_subtitles env).1 =
        Except.error ⟨400, "Cannot process video in status"⟩ ∧
      (generate_subtitles env).2 = []) ∧
    (∀ env v r, env.video = some v → (generate_subtitles env).1 = Except.ok r →
      v.status ∈ ["queued", "uploaded", "failed"]) := by
  constructor
  · intro env v huuid hv howner hs
    rcases hs with h | h <;>
      simp [generate_subtitles, huuid, hv, howner, h]
  · intro env v r hv hok
    by_contra hst
    have hst3 : ¬ v.status = "queued" ∧ ¬ v.status = "uploaded" ∧ ¬ v.status = "failed" := by
      simpa using hst
    by_cases h1 : env.uuid_valid = false
    · simp [generate_subtitles, h1] at hok
    · by_cases h2 : v.user_id ≠ env.current_user_id
      · simp [generate_subtitles, h1, hv, h2] at hok
      · simp [generate_subtitles, h1, hv, h2, hst3] at hok

/-- Video row of the C9 witness request: status completed. -/
def videoC9 : Video :=
  { id := 2, user_id := 7, status := "completed",
    video_url := "https://kv.example.co/storage/v1/object/public/videos/videos/20250101_c9.mp4",
    language := "de", duration_minutes := 5, dubbing_id := none,
    dubbed_video_url := none, burned_video_url := none, is_dubbed_audio := false }

/-- Oracle inputs of the C9 witness request. -/
def envC9 : GenEnv :=
  { uuid_valid := true, video := some videoC9, current_user_id := 7,
    enable_dubbing := false, status_update_ok := fun _ => true,
    download_ok := true, duration := 5, processing_cost := 3/100,
    user_details := some ⟨30, 30⟩, dubbing_result := none,
    subtitle_url := some "https://kv.example.co/storage/v1/object/public/videos/subtitles/c9.srt",
    save_subtitle_ok := true }

/-- C9, witness: a completed video is rejected with the invalid-status
error and no mutating call is made. -/
theorem C9_witness :
    (generate_subtitles envC9).1 =
      Except.error ⟨400, "Cannot process video in status"⟩ ∧
    (generate_subtitles envC9).2 = [] :=
  C9_status_gate.1 envC9 videoC9 rfl rfl rfl (Or.inl rfl)

/-- C8: fetchResult gating in get_dubbed_video.  First conjunct: when no
dubbed URL is cached and the polled provider status is not the completed
vocabulary word dubbed, the request fails with the 400 not-ready error,
the video row is unchanged (no dubbed URL is stored) and the provider
fetch is never invoked.  Second conjunct: when a dubbed URL is cached on
the row, the request returns it with no provider call at all and the row
unchanged. -/
theorem C8_fetch_result_gating (env : DubEnv) (v : Video)
    (huuid : env.uuid_valid = true)
    (hv : env.video = some v)
    (howner : v.user_id = env.current_user_id)
    (hdid : v.dubbing_id = some env.dubbing_id)
    (hne : env.dubbing_id ≠ "") :
    (∀ st, env.provider_status = some st → st.getD "dubbing" ≠ "dubbed" →
      truthyOptStr v.dubbed_video_url = false →
      (get_dubbed_video env).1 = Except.error ⟨400, "Dubbing is not completed yet"⟩ ∧
      (get_dubbed_video env).2.1 = some v ∧
      DubEff.providerFetchCall ∉ (get_dubbed_video env).2.2) ∧
    (∀ u, v.dubbed_video_url = some u → u ≠ "" →
      (get_dubbed_video env).1 = Except.ok ⟨u, "dubbed"⟩ ∧
      (get_dubbed_video env).2.1 = some v ∧
      (get_dubbed_video env).2.2 = []) := by
  have htid : truthyOptStr (some env.dubbing_id) = true := by
    simp [truthyOptStr, hne]
  constructor
  · intro st hst hnd hnc
    simp [get_dubbed_video, huuid, hv, howner, hdid, htid, hnc, hst, hnd]
  · intro u hu hne2
    have htc : truthyOptStr (some u) = true := by
      simp [truthyOptStr, hne2]
    simp [get_dubbed_video, huuid, hv, howner, hdid, htid, htc, hu]

/-- Video row of the C8 witness requests before any dubbed URL is cached. -/
def videoC8a : Video :=
  { id := 3, user_id := 9, status := "processing",
    video_url := "https://kv.example.co/storage/v1/object/public/videos/videos/20250101_c8.mp4",
    language := "fr", duration_minutes := 4, dubbing_id := some "dub-1",
    dubbed_video_url := none, burned_video_url := none, is_dubbed_audio := false }

/-- C8 witness request polled while the provider still reports dubbing. -/
def envC8a : DubEnv :=
  { uuid_valid := true, video := some videoC8a, dubbing_id := "dub-1",
    current_user_id := 9, provider_status := some (some "dubbing"),
    fetched_url := some "https://kv.example.co/storage/v1/object/public/videos/dubbed_videos/d.mp4" }

/-- Video row of the C8 witness request with a cached dubbed URL. -/
def videoC8b : Video :=
  { id := 3, user_id := 9, status := "completed",
    video_url := "https://kv.example.co/storage/v1/object/public/videos/videos/20250101_c8.mp4",
    language := "fr", duration_minutes := 4, dubbing_id := some "dub-1",
    dubbed_video_url := some "https://kv.example.co/storage/v1/object/public/videos/dubbed_videos/d.mp4",
    burned_video_url := none, is_dubbed_audio := true }

/-- C8 witness request arriving after the dubbed URL was cached. -/
def envC8b : DubEnv :=
  { uuid_valid := true, video := some videoC8b, dubbing_id := "dub-1",
    current_user_id := 9, provider_status := some (some "dubbed"),
    fetched_url := some "https://kv.example.co/storage/v1/object/public/videos/dubbed_videos/d2.mp4" }

/-- C8, witness: the not-ready rejection leaves the row unchanged with no
fetch call, and the cached-URL request answers from the row with no
provider call. -/
theorem C8_witness :
    ((get_dubbed_video envC8a).1 = Except.error ⟨400, "Dubbing is not completed yet"⟩ ∧
     (get_dubbed_video envC8a).2.1 = some videoC8a ∧
     DubEff.providerFetchCall ∉ (get_dubbed_video envC8a).2.2) ∧
    ((get_dubbed_video envC8b).1 =
       Except.ok ⟨"https://kv.example.co/storage/v1/object/public/videos/dubbed_videos/d.mp4", "dubbed"⟩ ∧
     (get_dubbed_video envC8b).2.1 = some videoC8b ∧
     (get_dubbed_video envC8b).2.2 = []) :=
  ⟨(C8_fetch_result_gating envC8a videoC8a rfl rfl rfl rfl (by decide)).1
      (some "dubbing") rfl (by decide) rfl,
   (C8_fetch_result_gating envC8b videoC8b rfl rfl rfl rfl (by decide)).2
      "https://kv.example.co/storage/v1/object/public/videos/dubbed_videos/d.mp4" rfl (by decide)⟩

/-- C10: for a successful burn-subtitles request (validations pass, the
burn step returns a processed URL), first conjunct: on a video with a
dubbed URL both dubbed_video_url and burned_video_url are written to the
same processed URL, deletion of the previous dubbed object is attempted,
and video_url is untouched; second conjunct: on a video without a dubbed
URL only burned_video_url changes while video_url and dubbed_video_url
stay as they were. -/
theorem C10_burn_url_updates (env : BurnEnv) (v : Video) (s : Subtitle) (purl : String)
    (hu : env.uuids_valid = true)
    (hv : env.video = some v)
    (ho : v.user_id = env.current_user_id)
    (hs : env.subtitle = some s)
    (hsv : s.video_id = v.id)
    (hb : env.burn_result = some purl) :
    (∀ d, v.dubbed_video_url = some d → d ≠ "" →
      (burn_subtitles env).1 = Except.ok ⟨purl, s.language, "completed"⟩ ∧
      ∃ v1, (burn_subtitles env).2.1 = some v1 ∧
        v1.dubbed_video_url = some purl ∧
        v1.burned_video_url = some purl ∧
        v1.video_url = v.video_url ∧
        BurnEff.deleteFileAttempt (extract_storage_path d) ∈ (burn_subtitles env).2.2) ∧
    (truthyOptStr v.dubbed_video_url = false →
      (burn_subtitles env).1 = Except.ok ⟨purl, s.language, "completed"⟩ ∧
      ∃ v1, (burn_subtitles env).2.1 = some v1 ∧
        v1.burned_video_url = some purl ∧
        v1.video_url = v.video_url ∧
        v1.dubbed_video_url = v.dubbed_video_url) := by
  constructor
  · intro d hd hdne
    have htc : truthyOptStr (some d) = true := by
      simp [truthyOptStr, hdne]
    refine ⟨?_, { v with dubbed_video_url := some purl, burned_video_url := some purl }, ?_⟩ <;>
      simp [burn_subtitles, hu, hv, ho, hs, hsv, hb, hd, htc]
  · intro hnd
    refine ⟨?_, { v with burned_video_url := some purl }, ?_⟩ <;>
      simp [burn_subtitles, hu, hv, ho, hs, hsv, hb, hnd]

/-- Video row of the C10 witness request with a cached dubbed URL. -/
def videoC10a : Video :=
  { id := 4, user_id := 11, status := "completed",
    video_url := "https://kv.example.co/storage/v1/object/public/videos/videos/20250101_c10.mp4",
    language := "es", duration_minutes := 3, dubbing_id := some "dub-2",
    dubbed_video_url := some "https://kv.example.co/storage/v1/object/public/videos/dubbed_videos/old.mp4",
    burned_video_url := none, is_dubbed_audio := true }

/-- Subtitle row of the C10 witness requests. -/
def subC10 : Subtitle :=
  { video_id := 4,
    subtitle_url := "https://kv.example.co/storage/v1/object/public/videos/subtitles/c10.srt",
    language := "es" }

/-- C10 witness request on the dubbed video. -/
def envC10a : BurnEnv :=
  { uuids_valid := true, video := some videoC10a, subtitle := some subC10,
    current_user_id := 11,
    burn_result := some "https://kv.example.co/storage/v1/object/public/videos/processed_videos/new.mp4" }

/-- Video row of the C10 witness request without a dubbed URL. -/
def videoC10b : Video :=
  { id := 4, user_id := 11, status := "completed",
    video_url := "https://kv.example.co/storage/v1/object/public/videos/videos/20250101_c10.mp4",
    language := "es", duration_minutes := 3, dubbing_id := none,
    dubbed_video_url := none, burned_video_url := none, is_dubbed_audio := false }

/-- C10 witness request on the non-dubbed video. -/
def envC10b : BurnEnv :=
  { uuids_valid := true, video := some videoC10b, subtitle := some subC10,
    current_user_id := 11,
    burn_result := some "https://kv.example.co/storage/v1/object/public/videos/processed_videos/new.mp4" }

/-- C10, witness: both the dubbed and the non-dubbed concrete requests
behave as the theorem states. -/
theorem C10_witness :
    ((burn_subtitles envC10a).1 =
       Except.ok ⟨"https://kv.example.co/storage/v1/object/public/videos/processed_videos/new.mp4",
                  "es", "completed"⟩ ∧
     ∃ v1, (burn_subtitles envC10a).2.1 = some v1 ∧
       v1.dubbed_video_url =
         some "https://kv.example.co/storage/v1/object/public/videos/processed_videos/new.mp4" ∧
       v1.burned_video_url =
         some "https://kv.example.co/storage/v1/object/public/videos/processed_videos/new.mp4" ∧
       v1.video_url = videoC10a.video_url ∧
       BurnEff.deleteFileAttempt
         (extract_storage_path "https://kv.example.co/storage/v1/object/public/videos/dubbed_videos/old.mp4")
         ∈ (burn_subtitles envC10a).2.2) ∧
    ((burn_subtitles envC10b).1 =
       Except.ok ⟨"https://kv.example.co/storage/v1/object/public/videos/processed_videos/new.mp4",
                  "es", "completed"⟩ ∧
     ∃ v1, (burn_subtitles envC10b).2.1 = some v1 ∧
       v1.burned_video_url =
         some "https://kv.example.co/storage/v1/object/public/videos/processed_videos/new.mp4" ∧
       v1.video_url = videoC10b.video_url ∧
       v1.dubbed_video_url = videoC10b.dubbed_video_url) :=
  ⟨(C10_burn_url_updates envC10a videoC10a subC10
      "https://kv.example.co/storage/v1/object/public/videos/processed_videos/new.mp4"
      rfl rfl rfl rfl rfl rfl).1
      "https://kv.example.co/storage/v1/object/public/videos/dubbed_videos/old.mp4"
      rfl (by decide),
   (C10_burn_url_updates envC10b videoC10b subC10
      "https://kv.example.co/storage/v1/object/public/videos/processed_videos/new.mp4"
      rfl rfl rfl rfl rfl rfl).2 (by decide)⟩
